import Mathlib

/-!
A shallow embedding of the aggregation and forecasting engine of the
UDRG-Inventory-Sales-Analysis dashboard (src/src/App.tsx together with the
record shapes of src/src/types/index.ts), and proofs settling the claims
about it.

Modelling conventions:
* JavaScript strings are modelled as `List Char` (`Str`); JS string
  comparison (`<=`, `>=` on strings, used for the calendar-day window) is
  code-unit lexicographic order, modelled by the structural `strLtB`/`strLeB`.
* JavaScript numbers are modelled as `ℚ` with exact arithmetic.
* `Array.prototype.filter`/`map`/`reduce` become `List.filter`/`map`/`sum`;
  the JS `Map` built by insertion becomes the corresponding list functions
  (last `set` wins, iteration in first-insertion order).
* `new Date(s)` on an ISO `YYYY-MM-DD` string is modelled by reading the
  year / zero-based month / day digit fields directly.
-/

namespace UDRG

/-- JS strings as sequences of characters. -/
abbrev Str := List Char

/-- Coerce a Lean string literal into the JS string model. -/
def str (s : String) : Str := s.data

/-- Strict lexicographic (code-unit) order on JS strings. -/
def strLtB : Str → Str → Bool
  | [], [] => false
  | [], _ :: _ => true
  | _ :: _, [] => false
  | a :: as, b :: bs =>
      if a.toNat < b.toNat then true
      else if b.toNat < a.toNat then false
      else strLtB as bs

/-- Comparison `a <= b` on JS strings (total order, the negation of `b < a`). -/
def strLeB (a b : Str) : Bool := !(strLtB b a)

/-- JS whitespace test for `String.prototype.trim` (ASCII fragment). -/
def isJsSpace (c : Char) : Bool :=
  c == ' ' || c == '\t' || c == '\n' || c == '\r'

/-- Model of `String.prototype.trim`. -/
def trimS (s : Str) : Str :=
  ((s.dropWhile isJsSpace).reverse.dropWhile isJsSpace).reverse

/-- Model of `String.prototype.toLowerCase` on one character (ASCII fragment). -/
def lowerChar (c : Char) : Char :=
  if 'A'.toNat ≤ c.toNat && c.toNat ≤ 'Z'.toNat then Char.ofNat (c.toNat + 32) else c

/-- Model of `String.prototype.toLowerCase` on a JS string. -/
def lowerS (s : Str) : Str := s.map lowerChar

/-- Does `pat` occur at the head of `hay`? (helper for `strIncludes`). -/
def leadsWith : Str → Str → Bool
  | _, [] => true
  | [], _ :: _ => false
  | h :: hs, p :: ps => h == p && leadsWith hs ps

/-- Model of `String.prototype.includes`: substring occurrence test. -/
def strIncludes : Str → Str → Bool
  | hay, pat =>
    if leadsWith hay pat then true
    else match hay with
      | [] => false
      | _ :: hs => strIncludes hs pat

/-- Value of a string of decimal digits. -/
def digitsToNat (s : Str) : Nat :=
  s.foldl (fun acc c => acc * 10 + (c.toNat - 48)) 0

/-- Model of `t.date.split('T')[0]`: the calendar-day component of an ISO date string. -/
def normDate (s : Str) : Str := s.takeWhile (fun c => c != 'T')

/-- Model of `new Date(s).getFullYear()` for an ISO `YYYY-MM-DD(...)` string. -/
def dateY (s : Str) : Int := (digitsToNat ((normDate s).take 4) : Int)

/-- Model of `new Date(s).getMonth()` (zero-based month) for an ISO date string. -/
def dateM0 (s : Str) : Nat := digitsToNat (((normDate s).drop 5).take 2) - 1

/-- Day-of-month of an ISO date string. -/
def dateD (s : Str) : Nat := digitsToNat (((normDate s).drop 8).take 2)

/-- Days since the Unix epoch of a calendar day (civil-calendar algorithm);
`new Date(s).getTime()` is this value times 86 400 000. -/
def epochDays (s : Str) : Int :=
  let y : Int := dateY s
  let m : Int := (dateM0 s : Int) + 1
  let d : Int := (dateD s : Int)
  let y2 : Int := if m ≤ 2 then y - 1 else y
  let era : Int := Int.fdiv y2 400
  let yoe : Int := y2 - era * 400
  let mp : Int := Int.emod (m + 9) 12
  let doy : Int := Int.fdiv (153 * mp + 2) 5 + d - 1
  let doe : Int := yoe * 365 + Int.fdiv yoe 4 - Int.fdiv yoe 100 + doy
  era * 146097 + doe - 719468

/-- Deduplication keeping the first occurrence (JS `new Set(...)` insertion
order, used with `Array.from`). -/
def firstDedup [BEq α] : List α → List α
  | [] => []
  | a :: as => a :: firstDedup (as.filter (fun b => !(b == a)))
termination_by l => l.length
decreasing_by
  exact Nat.lt_succ_of_le (List.length_filter_le _ _)

/-- Model of `Array.prototype.join(', ')` over a set of labels. -/
def joinComma (l : List Str) : Str := (List.intersperse (str ", ") l).flatten

/-- Review-status values of a transaction (src/src/types/index.ts). -/
inductive ReviewStatus
  | pending
  | verified
  | ignored
  | modified
deriving DecidableEq, Repr

/-- Catalog entry (src/src/types/index.ts, `Product`). -/
structure Product where
  sku : Str
  name : Str
  department : Str
  category : Str
  vendor : Str
  cost : ℚ
  price : ℚ
deriving DecidableEq, Repr

/-- Atomic sale event (src/src/types/index.ts, `Transaction`). -/
structure Transaction where
  id : Str
  date : Str
  sku : Str
  qtySold : ℚ
  discount : Option ℚ
  property : Str
  unit_price_sold : Option ℚ
  unit_cost_sold : Option ℚ
  review_status : Option ReviewStatus
deriving DecidableEq, Repr

/-- Point-in-time stock count (src/src/types/index.ts, `InventoryState`). -/
structure InventoryState where
  sku : Str
  qtyOnHand : ℚ
  property : Option Str
  lastCounted : Option Str
deriving DecidableEq, Repr

/-- One month of a row's restock schedule (src/src/types/index.ts,
`CellLogic`). -/
structure CellLogic where
  monthIndex : Nat
  monthLabel : Str
  forecastedDemand : ℚ
  openingStock : ℚ
  targetStock : ℚ
  restockQty : ℚ
  restockCost : ℚ
  closingStock : ℚ
  historicalAverage : ℚ
deriving DecidableEq, Repr, Inhabited

/-- Derived aggregation row (src/src/types/index.ts, `AnalysisRow`). -/
structure AnalysisRow where
  id : Str
  name : Str
  department : Str
  category : Str
  vendor : Str
  isGroup : Bool
  skus : List Str
  productCost : ℚ
  qtySold : ℚ
  grossRevenue : ℚ
  discounts : ℚ
  revenue : ℚ
  profit : ℚ
  qtyOnHand : ℚ
  avgMonthlyDemand : ℚ
  monthsOfSupply : ℚ
  suggestedReorder : ℚ
  calendarSchedule : List CellLogic
  hasHistory : Bool
deriving DecidableEq, Repr, Inhabited

/-- User-defined SKU bundle (src/src/types/index.ts, `CustomGroup`). -/
structure CustomGroup where
  id : Str
  name : Str
  skus : List Str
deriving DecidableEq, Repr

/-- Grouping mode of the dashboard. -/
inductive GroupBy
  | sku
  | category
  | custom
deriving DecidableEq, Repr

/-- Sort field of the dashboard (`FilterState.sortBy`). -/
inductive SortField
  | qtySold
  | revenue
  | profit
  | qtyOnHand
  | name
deriving DecidableEq, Repr

/-- Sort direction (`FilterState.sortDir`). -/
inductive SortDir
  | asc
  | desc
deriving DecidableEq, Repr

/-- Query parameters of the aggregation (runtime shape of the `filters`
state initialised in src/src/App.tsx; the display-only `showColumns`
toggles are not modelled since no computation reads them). -/
structure FilterState where
  search : Str
  searchFields : List Str
  categories : List Str
  departments : List Str
  vendors : List Str
  dateStart : Str
  dateEnd : Str
  groupBy : GroupBy
  selectedProperty : List Str
  sortBy : SortField
  sortDir : SortDir
  hideZeroSales : Bool
  hideZeroOnHand : Bool
deriving DecidableEq, Repr

/-- Transaction pre-filter of the aggregation (src/src/App.tsx, lines
395-400): keep transactions whose calendar day lies in the filter's date
window and whose property matches the selected locations (empty selection
matches all).  No condition on `review_status` appears here. -/
def txMatches (fs : FilterState) (t : Transaction) : Bool :=
  let txDate := normDate t.date
  (strLeB fs.dateStart txDate && strLeB txDate fs.dateEnd) &&
  (fs.selectedProperty.isEmpty ||
    fs.selectedProperty.any (fun p => trimS p == trimS t.property))

/-- The date/property-filtered transaction list feeding `analyzedData`. -/
def filteredTx (fs : FilterState) (txs : List Transaction) : List Transaction :=
  txs.filter (txMatches fs)

/-- Lookup `txBySku.get(sku)`: the filtered transactions of one SKU, in order. -/
def skuTx (ftx : List Transaction) (sku : Str) : List Transaction :=
  ftx.filter (fun t => t.sku == sku)

/-- Lookup `products.find(p => p.sku === sku)`. -/
def findProduct (products : List Product) (sku : Str) : Option Product :=
  products.find? (fun p => p.sku == sku)

/-- Coercion `t.discount || 0`. -/
def effDisc (t : Transaction) : ℚ := t.discount.getD 0

/-- A SKU's contribution to a row's `qtySold` (zero when the product is
unknown, since the `skus.forEach` body returns early). -/
def skuQtySold (products : List Product) (ftx : List Transaction) (sku : Str) : ℚ :=
  match findProduct products sku with
  | none => 0
  | some _ => ((skuTx ftx sku).map (fun t => t.qtySold)).sum

/-- A SKU's contribution to a row's net `revenue`: the per-transaction
`qtySold * p.price - discount` (the product's current price; the
transaction's own `unit_price_sold` is not consulted here). -/
def skuRevenue (products : List Product) (ftx : List Transaction) (sku : Str) : ℚ :=
  match findProduct products sku with
  | none => 0
  | some p => ((skuTx ftx sku).map (fun t => t.qtySold * p.price - effDisc t)).sum

/-- A SKU's contribution to a row's `discounts`. -/
def skuDiscounts (products : List Product) (ftx : List Transaction) (sku : Str) : ℚ :=
  match findProduct products sku with
  | none => 0
  | some _ => ((skuTx ftx sku).map effDisc).sum

/-- A SKU's contribution to a row's `profit`:
`(qty * p.price - discount) - qty * p.cost` per transaction. -/
def skuProfit (products : List Product) (ftx : List Transaction) (sku : Str) : ℚ :=
  match findProduct products sku with
  | none => 0
  | some p =>
      ((skuTx ftx sku).map
        (fun t => (t.qtySold * p.price - effDisc t) - t.qtySold * p.cost)).sum

/-- A SKU's contribution to the row's summed product cost. -/
def skuCost (products : List Product) (sku : Str) : ℚ :=
  match findProduct products sku with
  | none => 0
  | some p => p.cost

/-- Truthiness of an optional property label (`if (i.property)`): present
and non-empty. -/
def truthyProp (o : Option Str) : Bool :=
  match o with
  | none => false
  | some p => !p.isEmpty

/-- Lookup `invIndex.get(sku).get(prop)`: the inventory index maps a (sku,
truthy property) pair to the LAST count written for it (`Map.set`
overwrites), missing keys read as 0. -/
def invLast (inventory : List InventoryState) (sku prop : Str) : ℚ :=
  match (inventory.filter
      (fun i => i.sku == sku && truthyProp i.property && i.property.getD [] == prop)).getLast? with
  | some i => i.qtyOnHand
  | none => 0

/-- The distinct truthy property keys of a SKU's inventory sub-map, in
first-insertion order. -/
def invProps (inventory : List InventoryState) (sku : Str) : List Str :=
  firstDedup ((inventory.filter (fun i => i.sku == sku)).filterMap
    (fun i => if truthyProp i.property then i.property else none))

/-- A SKU's contribution to the row's `qtyOnHand`: all locations when no
property is selected, otherwise the selected locations only (guarded by
the product existing, as the whole per-SKU body is). -/
def skuOnHand (products : List Product) (inventory : List InventoryState)
    (fs : FilterState) (sku : Str) : ℚ :=
  match findProduct products sku with
  | none => 0
  | some _ =>
      if fs.selectedProperty.isEmpty then
        ((invProps inventory sku).map (fun p => invLast inventory sku p)).sum
      else
        (fs.selectedProperty.map (fun p => invLast inventory sku p)).sum

/-- A SKU's department label, when its product exists. -/
def skuDept (products : List Product) (sku : Str) : Option Str :=
  (findProduct products sku).map (fun p => p.department)

/-- A SKU's vendor label, when its product exists. -/
def skuVendor (products : List Product) (sku : Str) : Option Str :=
  (findProduct products sku).map (fun p => p.vendor)

/-- The identity of one row before metric computation: constituent SKUs,
id, display name, category and group flag. -/
structure RowSpec where
  skus : List Str
  id : Str
  name : Str
  category : Str
  isGroup : Bool
deriving DecidableEq, Repr

/-- Function `calculateMetrics` (src/src/App.tsx, lines 413-465): the per-row metric
computation over the row's constituent SKUs.  `grossRevenue` is produced as
`revenue + discounts`. -/
def calculateMetrics (products : List Product) (inventory : List InventoryState)
    (fs : FilterState) (ftx : List Transaction) (spec : RowSpec) : AnalysisRow :=
  let qtySold := (spec.skus.map (skuQtySold products ftx)).sum
  let revenue := (spec.skus.map (skuRevenue products ftx)).sum
  let discounts := (spec.skus.map (skuDiscounts products ftx)).sum
  let profit := (spec.skus.map (skuProfit products ftx)).sum
  let costSum := (spec.skus.map (skuCost products)).sum
  let qtyOnHand := (spec.skus.map (skuOnHand products inventory fs)).sum
  let productCost :=
    if spec.isGroup && !spec.skus.isEmpty then costSum / (spec.skus.length : ℚ)
    else costSum
  let departmentLabel := joinComma (firstDedup (spec.skus.filterMap (skuDept products)))
  let vendorLabel := joinComma (firstDedup (spec.skus.filterMap (skuVendor products)))
  let monthsDiff : ℚ :=
    max 1 (((epochDays fs.dateEnd - epochDays fs.dateStart : Int) : ℚ) / 30)
  let avgMonthlyDemand := qtySold / monthsDiff
  let monthsOfSupply := if 0 < avgMonthlyDemand then qtyOnHand / avgMonthlyDemand else 999
  let suggestedReorder := max 0 (avgMonthlyDemand * 2 - qtyOnHand)
  { id := spec.id
    name := spec.name
    department := departmentLabel
    category := spec.category
    vendor := vendorLabel
    isGroup := spec.isGroup
    skus := spec.skus
    productCost := productCost
    qtySold := qtySold
    grossRevenue := revenue + discounts
    discounts := discounts
    revenue := revenue
    profit := profit
    qtyOnHand := qtyOnHand
    avgMonthlyDemand := avgMonthlyDemand
    monthsOfSupply := monthsOfSupply
    suggestedReorder := suggestedReorder
    calendarSchedule := []
    hasHistory := false }

/-- Row construction by grouping mode (src/src/App.tsx, lines 467-482):
one row per product in `sku` mode, one per distinct category in `category`
mode, and in `custom` mode one per custom group plus one per unclaimed
product. -/
def rowSpecs (products : List Product) (customGroups : List CustomGroup) :
    GroupBy → List RowSpec
  | .sku => products.map (fun p => ⟨[p.sku], p.sku, p.name, p.category, false⟩)
  | .category =>
      (firstDedup (products.map (fun p => p.category))).map
        (fun c => ⟨(products.filter (fun p => p.category == c)).map (fun p => p.sku),
                    c, str "Category: " ++ c, c, true⟩)
  | .custom =>
      customGroups.map (fun g => ⟨g.skus, g.id, g.name, str "Custom Group", true⟩) ++
      (products.filter
          (fun p => !(customGroups.any (fun g => g.skus.contains p.sku)))).map
        (fun p => ⟨[p.sku], p.sku, p.name, p.category, false⟩)

/-- The analysis rows before the step-6 search/category/zero filtering and
the sort. -/
def analyzeRowsPre (products : List Product) (txs : List Transaction)
    (inventory : List InventoryState) (customGroups : List CustomGroup)
    (fs : FilterState) : List AnalysisRow :=
  (rowSpecs products customGroups fs.groupBy).map
    (calculateMetrics products inventory fs (filteredTx fs txs))

/-- Row-level display filter (src/src/App.tsx, lines 484-499): free-text
search over name/SKUs/vendor/category/department, category/department/
vendor inclusion sets, and the hide-zero toggles. -/
def rowMatches (fs : FilterState) (r : AnalysisRow) : Bool :=
  let searchLower := lowerS fs.search
  let matchSearch := searchLower.isEmpty ||
    strIncludes (lowerS r.name) searchLower ||
    r.skus.any (fun s => strIncludes (lowerS s) searchLower) ||
    strIncludes (lowerS r.vendor) searchLower ||
    strIncludes (lowerS r.category) searchLower ||
    strIncludes (lowerS r.department) searchLower
  let matchCat := fs.categories.isEmpty || fs.categories.contains r.category
  let matchDept := fs.departments.isEmpty ||
    fs.departments.any (fun d => strIncludes r.department d)
  let matchVendor := fs.vendors.isEmpty ||
    fs.vendors.any (fun v => strIncludes r.vendor v)
  let matchZeroSales := !fs.hideZeroSales || decide (0 < r.qtySold)
  let matchZeroOnHand := !fs.hideZeroOnHand || decide (0 < r.qtyOnHand)
  matchSearch && matchCat && matchDept && matchVendor && matchZeroSales && matchZeroOnHand

/-- Sign of `a.localeCompare(b)`, modelled as code-point comparison. -/
def strCmp (a b : Str) : Int :=
  if strLtB a b then -1 else if strLtB b a then 1 else 0

/-- The JS sort comparator's value for a pair of rows before applying the
direction factor (numeric fields subtract, the name field compares). -/
def sortKey (f : SortField) (a b : AnalysisRow) : ℚ :=
  match f with
  | .qtySold => a.qtySold - b.qtySold
  | .revenue => a.revenue - b.revenue
  | .profit => a.profit - b.profit
  | .qtyOnHand => a.qtyOnHand - b.qtyOnHand
  | .name => ((strCmp a.name b.name : Int) : ℚ)

/-- Whether `a` may stay before `b` under the configured sort. -/
def rowLeB (fs : FilterState) (a b : AnalysisRow) : Bool :=
  let dir : ℚ := match fs.sortDir with | .asc => 1 | .desc => -1
  decide (sortKey fs.sortBy a b * dir ≤ 0)

/-- The configured sort applied to the filtered rows. -/
def sortRows (fs : FilterState) (rows : List AnalysisRow) : List AnalysisRow :=
  rows.mergeSort (rowLeB fs)

/-- Pipeline `analyzedData` (src/src/App.tsx, lines 393-507): the full aggregation
pipeline from raw records and a filter state to the ordered row list. -/
def analyzedData (products : List Product) (txs : List Transaction)
    (inventory : List InventoryState) (customGroups : List CustomGroup)
    (fs : FilterState) : List AnalysisRow :=
  sortRows fs ((analyzeRowsPre products txs inventory customGroups fs).filter (rowMatches fs))

/-- JS strict equality between a string-array operand and a string operand:
operands of different runtime types compare unequal, so this is constantly
`false`.  (`filters.selectedProperty === 'All'` in src/src/App.tsx line 565,
where `selectedProperty : string[]`.) -/
def jsEqListStr (_ : List Str) (_ : Str) : Bool := false

/-- JS strict equality between a string operand and a string-array operand:
constantly `false` for the same reason (`t.property ===
filters.selectedProperty`, same line). -/
def jsEqStrList (_ : Str) (_ : List Str) : Bool := false

/-- History `pTx` of `handleRunForecast` (src/src/App.tsx, line 565): the
transaction history visible to the forecast lookback,
`transactions.filter(t => filters.selectedProperty === 'All' || t.property
=== filters.selectedProperty)`. -/
def forecastPTx (fs : FilterState) (txs : List Transaction) : List Transaction :=
  txs.filter (fun t =>
    jsEqListStr fs.selectedProperty (str "All") || jsEqStrList t.property fs.selectedProperty)

/-- Target month of forecast iteration `i`:
`new Date(today.getFullYear(), today.getMonth() + i, 1)` normalised to a
(year, zero-based month) pair. -/
def monthAt (ty : Int) (tm0 i : Nat) : Int × Nat :=
  (ty + ((tm0 + i) / 12 : Nat), (tm0 + i) % 12)

/-- English short month names, for the cell's display label. -/
def monthName (m : Nat) : Str :=
  ([str "Jan", str "Feb", str "Mar", str "Apr", str "May", str "Jun",
    str "Jul", str "Aug", str "Sep", str "Oct", str "Nov", str "Dec"]).getD m []

/-- Label `toLocaleDateString('en-US', short month + 2-digit year)`. -/
def monthLabel (y : Int) (m : Nat) : Str :=
  let yy := (Int.emod y 100).toNat
  monthName m ++ [' '] ++ (if yy < 10 then ['0'] else []) ++ str (toString yy)

/-- One lookback year of `handleRunForecast` (src/src/App.tsx, lines
579-584): the matching transactions of year `yr` / month `m` for the row's
SKUs, their summed quantity, and whether the year counts as found
(`sum > 0 || yTx.length > 0`, contributing 1 to `years`). -/
def lookYear (pTx : List Transaction) (skus : List Str) (m : Nat) (yr : Int) : ℚ × Nat :=
  let yTx := pTx.filter (fun t =>
    skus.contains t.sku && dateM0 t.date == m && dateY t.date == yr)
  let s := (yTx.map (fun t => t.qtySold)).sum
  if 0 < s ∨ 0 < yTx.length then (s, 1) else (0, 0)

/-- The 3-year lookback of one forecast month: summed history and count of
found years over `y = 1, 2, 3`. -/
def lookback (pTx : List Transaction) (skus : List Str) (m : Nat) (ty : Int) : ℚ × Nat :=
  let r1 := lookYear pTx skus m (ty - 1)
  let r2 := lookYear pTx skus m (ty - 2)
  let r3 := lookYear pTx skus m (ty - 3)
  (r1.1 + r2.1 + r3.1, r1.2 + r2.2 + r3.2)

/-- Did forecast month `i` find at least one lookback year (the condition
under which the loop sets `hasHistory`)? -/
def monthFound (pTx : List Transaction) (skus : List Str) (ty : Int) (tm0 i : Nat) : Bool :=
  decide (0 < (lookback pTx skus (monthAt ty tm0 i).2 (monthAt ty tm0 i).1).2)

/-- One forecast month's cell (src/src/App.tsx, lines 572-595):
historical average over found years, demand `ceil(avg * 1.05)` with the
`ceil(row.qtySold / 3)` fallback, order-up-to restock and the clamped
running stock.  The float literal `1.05` is modelled exactly as `105/100`. -/
def mkCell (pTx : List Transaction) (skus : List Str) (rowQtySold productCost : ℚ)
    (ty : Int) (tm0 i : Nat) (stock : ℚ) : CellLogic :=
  let ym := monthAt ty tm0 i
  let lb := lookback pTx skus ym.2 ym.1
  let avg : ℚ := if 0 < lb.2 then lb.1 / (lb.2 : ℚ) else 0
  let forecast : ℚ :=
    if 0 < avg then ((⌈avg * (105 / 100)⌉ : Int) : ℚ) else ((⌈rowQtySold / 3⌉ : Int) : ℚ)
  let target := forecast
  let need := (forecast + target) - stock
  let buy := max 0 need
  let closing := max 0 (stock + buy - forecast)
  { monthIndex := i - 1
    monthLabel := monthLabel ym.1 ym.2
    forecastedDemand := forecast
    openingStock := stock
    targetStock := target
    restockQty := buy
    restockCost := buy * productCost
    closingStock := closing
    historicalAverage := avg }

/-- The 12-iteration forecast loop as a recursion over the months still to
generate: `schedAux ... k i stock hh` produces the cells of iterations
`i, i+1, ..., i+k-1`, threading the simulated stock and the `hasHistory`
flag. -/
def schedAux (pTx : List Transaction) (skus : List Str) (rowQtySold productCost : ℚ)
    (ty : Int) (tm0 : Nat) : Nat → Nat → ℚ → Bool → List CellLogic × Bool
  | 0, _, _, hh => ([], hh)
  | k + 1, i, stock, hh =>
      let cell := mkCell pTx skus rowQtySold productCost ty tm0 i stock
      let rest := schedAux pTx skus rowQtySold productCost ty tm0 k (i + 1)
        cell.closingStock (hh || monthFound pTx skus ty tm0 i)
      (cell :: rest.1, rest.2)

/-- Forecast enrichment of one analysis row: 12 months starting at the
month after `today = (ty, tm0)`, the running stock seeded with the row's
`qtyOnHand`. -/
def forecastRow (pTx : List Transaction) (ty : Int) (tm0 : Nat)
    (row : AnalysisRow) : AnalysisRow :=
  let out := schedAux pTx row.skus row.qtySold row.productCost ty tm0 12 1 row.qtyOnHand false
  { row with calendarSchedule := out.1, hasHistory := out.2 }

/-- Handler `handleRunForecast` (src/src/App.tsx, lines 561-601): every analysis
row enriched with its 12-month schedule, the lookback reading the
property-filtered history `forecastPTx`. -/
def handleRunForecast (txs : List Transaction) (fs : FilterState)
    (ty : Int) (tm0 : Nat) (rows : List AnalysisRow) : List AnalysisRow :=
  rows.map (forecastRow (forecastPTx fs txs) ty tm0)

/-- Erase a transaction's point-in-time price/cost overrides. -/
def stripOverride (t : Transaction) : Transaction :=
  { t with unit_price_sold := none, unit_cost_sold := none }

/-- A representative filter state: the 2025 calendar year, no location /
search / category restrictions, SKU grouping. -/
def baseFilters : FilterState :=
  { search := []
    searchFields := [str "name"]
    categories := []
    departments := []
    vendors := []
    dateStart := str "2025-01-01"
    dateEnd := str "2025-12-31"
    groupBy := .sku
    selectedProperty := []
    sortBy := .revenue
    sortDir := .desc
    hideZeroSales := false
    hideZeroOnHand := false }

/-- The custom-grouping variant of `baseFilters`. -/
def customFilters : FilterState :=
  { baseFilters with groupBy := .custom }

/-- A demo product: price 10, cost 4. -/
def prodA : Product :=
  { sku := str "A", name := str "Widget", department := str "Toys",
    category := str "Misc", vendor := str "Acme", cost := 4, price := 10 }

/-- An in-range transaction of 5 units marked `ignored` by the review
workflow. -/
def txIgnored : Transaction :=
  { id := str "t1", date := str "2025-03-01", sku := str "A", qtySold := 5,
    discount := none, property := str "Default", unit_price_sold := none,
    unit_cost_sold := none, review_status := some .ignored }

/-- An in-range pending transaction of 9 units. -/
def txQty9 : Transaction :=
  { id := str "t4", date := str "2025-03-01", sku := str "A", qtySold := 9,
    discount := none, property := str "Default", unit_price_sold := none,
    unit_cost_sold := none, review_status := some .pending }

/-- An in-range transaction of 1 unit carrying point-in-time overrides
(`unit_price_sold = 7`, `unit_cost_sold = 1`) that differ from the
product's current price/cost. -/
def txOverride : Transaction :=
  { id := str "t5", date := str "2025-03-01", sku := str "A", qtySold := 1,
    discount := none, property := str "Default", unit_price_sold := some 7,
    unit_cost_sold := some 1, review_status := some .pending }

/-- A January 2025 sale of 20 units of SKU A. -/
def txJan25 : Transaction :=
  { id := str "t2", date := str "2025-01-15", sku := str "A", qtySold := 20,
    discount := none, property := str "Default", unit_price_sold := none,
    unit_cost_sold := none, review_status := some .pending }

/-- A January 2024 sale of 30 units of SKU A. -/
def txJan24 : Transaction :=
  { id := str "t3", date := str "2024-01-10", sku := str "A", qtySold := 30,
    discount := none, property := str "Default", unit_price_sold := none,
    unit_cost_sold := none, review_status := some .verified }

/-- A demo analysis row for SKU A with no sales in the performance window. -/
def demoRow : AnalysisRow :=
  { id := str "A", name := str "Widget", department := str "Toys", category := str "Misc",
    vendor := str "Acme", isGroup := false, skus := [str "A"], productCost := 4,
    qtySold := 0, grossRevenue := 0, discounts := 0, revenue := 0, profit := 0,
    qtyOnHand := 0, avgMonthlyDemand := 0, monthsOfSupply := 999, suggestedReorder := 0,
    calendarSchedule := [], hasHistory := false }

/-- Variant of `demoRow` with 9 units sold in the performance window. -/
def demoRow9 : AnalysisRow :=
  { demoRow with qtySold := 9 }

/-- The row spec generated for `prodA` under SKU grouping. -/
def demoSpec : RowSpec :=
  ⟨[str "A"], str "A", str "Widget", str "Misc", false⟩

/-- The single analysis row of the catalogue `[prodA]` with no
transactions, under `baseFilters`. -/
def demoRow0 : AnalysisRow :=
  calculateMetrics [prodA] [] baseFilters (filteredTx baseFilters []) demoSpec

/-! ### Helper lemmas about the forecast recursion -/

theorem mkCell_closingStock (pTx : List Transaction) (skus : List Str) (q c : ℚ)
    (ty : Int) (tm0 i : Nat) (st : ℚ) :
    (mkCell pTx skus q c ty tm0 i st).closingStock =
      max 0 ((mkCell pTx skus q c ty tm0 i st).openingStock
        + (mkCell pTx skus q c ty tm0 i st).restockQty
        - (mkCell pTx skus q c ty tm0 i st).forecastedDemand) := by
  simp [mkCell]

theorem mkCell_openingStock (pTx : List Transaction) (skus : List Str) (q c : ℚ)
    (ty : Int) (tm0 i : Nat) (st : ℚ) :
    (mkCell pTx skus q c ty tm0 i st).openingStock = st := rfl

theorem schedAux_length (pTx : List Transaction) (skus : List Str) (q c : ℚ)
    (ty : Int) (tm0 : Nat) :
    ∀ k i st hh, ((schedAux pTx skus q c ty tm0 k i st hh).1).length = k := by
  intro k
  induction k with
  | zero => intro i st hh; simp [schedAux]
  | succ n ih => intro i st hh; simp [schedAux, ih]

theorem schedAux_cells (pTx : List Transaction) (skus : List Str) (q c : ℚ)
    (ty : Int) (tm0 : Nat) (P : CellLogic → Prop)
    (hP : ∀ i st, P (mkCell pTx skus q c ty tm0 i st)) :
    ∀ k i st hh, ∀ cell ∈ (schedAux pTx skus q c ty tm0 k i st hh).1, P cell := by
  intro k
  induction k with
  | zero => intro i st hh cell hc; simp [schedAux] at hc
  | succ n ih =>
      intro i st hh cell hc
      simp only [schedAux, List.mem_cons] at hc
      rcases hc with h | h
      · rw [h]; exact hP i st
      · exact ih (i + 1) _ _ cell h

theorem schedAux_head_opening (pTx : List Transaction) (skus : List Str) (q c : ℚ)
    (ty : Int) (tm0 : Nat) (k i : Nat) (st : ℚ) (hh : Bool)
    (h : 0 < ((schedAux pTx skus q c ty tm0 k i st hh).1).length) :
    (((schedAux pTx skus q c ty tm0 k i st hh).1).get ⟨0, h⟩).openingStock = st := by
  cases k with
  | zero => simp [schedAux] at h
  | succ n => simp [schedAux, mkCell_openingStock]

theorem schedAux_chain (pTx : List Transaction) (skus : List Str) (q c : ℚ)
    (ty : Int) (tm0 : Nat) :
    ∀ k i st hh j (h1 : j < ((schedAux pTx skus q c ty tm0 k i st hh).1).length)
      (h2 : j + 1 < ((schedAux pTx skus q c ty tm0 k i st hh).1).length),
      (((schedAux pTx skus q c ty tm0 k i st hh).1).get ⟨j + 1, h2⟩).openingStock =
        (((schedAux pTx skus q c ty tm0 k i st hh).1).get ⟨j, h1⟩).closingStock := by
  intro k
  induction k with
  | zero => intro i st hh j h1 h2; simp [schedAux] at h1
  | succ n ih =>
      intro i st hh j h1 h2
      cases j with
      | zero =>
          simp only [schedAux, List.get_cons_succ]
          have h0 : 0 < ((schedAux pTx skus q c ty tm0 n (i + 1)
              (mkCell pTx skus q c ty tm0 i st).closingStock
              (hh || monthFound pTx skus ty tm0 i)).1).length := by
            simp only [schedAux, List.length_cons] at h2
            omega
          simpa using schedAux_head_opening pTx skus q c ty tm0 n (i + 1) _ _ h0
      | succ m =>
          simp only [schedAux, List.get_cons_succ]
          apply ih

theorem schedAux_flag (pTx : List Transaction) (skus : List Str) (q c : ℚ)
    (ty : Int) (tm0 : Nat) :
    ∀ k i st hh, (schedAux pTx skus q c ty tm0 k i st hh).2 =
      (hh || ((List.range k).any (fun j => monthFound pTx skus ty tm0 (i + j)))) := by
  intro k
  induction k with
  | zero => intro i st hh; simp [schedAux]
  | succ n ih =>
      intro i st hh
      rw [List.range_succ_eq_map]
      simp only [schedAux, ih, List.any_cons, List.any_map]
      have harg : ∀ j : Nat, i + 1 + j = i + (j + 1) := by omega
      simp only [Function.comp_def, Nat.add_zero, harg, Nat.succ_eq_add_one]
      rw [Bool.or_assoc]

theorem forecastRow_fields (pTx : List Transaction) (ty : Int) (tm0 : Nat)
    (row : AnalysisRow) :
    (forecastRow pTx ty tm0 row).qtySold = row.qtySold ∧
    (forecastRow pTx ty tm0 row).qtyOnHand = row.qtyOnHand ∧
    (forecastRow pTx ty tm0 row).skus = row.skus ∧
    (forecastRow pTx ty tm0 row).productCost = row.productCost := by
  refine ⟨rfl, rfl, rfl, rfl⟩

theorem forecastRow_schedule (pTx : List Transaction) (ty : Int) (tm0 : Nat)
    (row : AnalysisRow) :
    (forecastRow pTx ty tm0 row).calendarSchedule =
      (schedAux pTx row.skus row.qtySold row.productCost ty tm0 12 1 row.qtyOnHand false).1 :=
  rfl

theorem forecastRow_hasHistory (pTx : List Transaction) (ty : Int) (tm0 : Nat)
    (row : AnalysisRow) :
    (forecastRow pTx ty tm0 row).hasHistory =
      (schedAux pTx row.skus row.qtySold row.productCost ty tm0 12 1 row.qtyOnHand false).2 :=
  rfl

theorem mem_handleRunForecast {txs : List Transaction} {fs : FilterState}
    {ty : Int} {tm0 : Nat} {rows : List AnalysisRow} {r : AnalysisRow}
    (h : r ∈ handleRunForecast txs fs ty tm0 rows) :
    ∃ row ∈ rows, r = forecastRow (forecastPTx fs txs) ty tm0 row := by
  obtain ⟨row, hm, he⟩ := List.mem_map.mp h
  exact ⟨row, hm, he.symm⟩

theorem mem_analyzedData {p : List Product} {t : List Transaction}
    {inv : List InventoryState} {g : List CustomGroup} {fs : FilterState}
    {r : AnalysisRow} (h : r ∈ analyzedData p t inv g fs) :
    ∃ spec ∈ rowSpecs p g fs.groupBy,
      r = calculateMetrics p inv fs (filteredTx fs t) spec := by
  rw [analyzedData, sortRows, List.mem_mergeSort] at h
  obtain ⟨hm, -⟩ := List.mem_filter.mp h
  obtain ⟨spec, hs, he⟩ := List.mem_map.mp hm
  exact ⟨spec, hs, he.symm⟩

/-- The month's forecasted demand is non-negative whenever the row's
windowed quantity is. -/
theorem demand_nonneg (avg q : ℚ) (hq : 0 ≤ q) :
    0 ≤ (if 0 < avg then ((⌈avg * (105 / 100)⌉ : Int) : ℚ) else ((⌈q / 3⌉ : Int) : ℚ)) := by
  split
  · next h =>
      have h2 : (0 : ℚ) < avg * (105 / 100) := mul_pos h (by norm_num)
      have h3 := (Int.ceil_pos (a := avg * (105 / 100))).mpr h2
      exact_mod_cast h3.le
  · next =>
      have h2 : (0 : ℚ) ≤ q / 3 := by positivity
      have h3 := Int.ceil_nonneg h2
      exact_mod_cast h3

/-- Order-up-to-core: when a positive order is placed, the clamped closing
stock lands exactly on the target. -/
theorem orderUpTo_core (f st : ℚ) (hf : 0 ≤ f) (hb : 0 < max 0 ((f + f) - st)) :
    max 0 (st + max 0 ((f + f) - st) - f) = f := by
  have hneed : 0 < (f + f) - st := by
    rcases lt_max_iff.mp hb with h | h
    · exact absurd h (lt_irrefl 0)
    · exact h
  rw [max_eq_right hneed.le]
  have h2 : st + ((f + f) - st) - f = f := by ring
  rw [h2, max_eq_right hf]

/-- The cell's demand field satisfies the `ceil(avg*1.05)` /
`ceil(qtySold/3)` case split in terms of its recorded historical average. -/
theorem mkCell_demand (pTx : List Transaction) (skus : List Str) (q c : ℚ)
    (ty : Int) (tm0 i : Nat) (st : ℚ) :
    (mkCell pTx skus q c ty tm0 i st).forecastedDemand =
      (if 0 < (mkCell pTx skus q c ty tm0 i st).historicalAverage
       then ((⌈(mkCell pTx skus q c ty tm0 i st).historicalAverage * (105 / 100)⌉ : Int) : ℚ)
       else ((⌈q / 3⌉ : Int) : ℚ)) := rfl

/-- A positive order in a cell closes the month at the target, which is
the demand. -/
theorem mkCell_order (pTx : List Transaction) (skus : List Str) (q c : ℚ)
    (ty : Int) (tm0 i : Nat) (st : ℚ) (hq : 0 ≤ q)
    (hb : 0 < (mkCell pTx skus q c ty tm0 i st).restockQty) :
    (mkCell pTx skus q c ty tm0 i st).closingStock =
        (mkCell pTx skus q c ty tm0 i st).targetStock ∧
      (mkCell pTx skus q c ty tm0 i st).targetStock =
        (mkCell pTx skus q c ty tm0 i st).forecastedDemand := by
  simp only [mkCell] at hb ⊢
  exact ⟨orderUpTo_core _ st (demand_nonneg _ q hq) hb, trivial⟩

/-- C4.  For every row enriched by the forecast and every month of its
12-entry schedule: `closingStock = max(0, openingStock + restockQty -
forecastedDemand)`, each month's opening stock is the previous month's
closing stock, and the first month opens at the row's `qtyOnHand`. -/
theorem C4_stock_conservation :
    ∀ (txs : List Transaction) (fs : FilterState) (ty : Int) (tm0 : Nat)
      (rows : List AnalysisRow) (r : AnalysisRow),
      r ∈ handleRunForecast txs fs ty tm0 rows →
      r.calendarSchedule.length = 12 ∧
      (∀ h : 0 < r.calendarSchedule.length,
        (r.calendarSchedule.get ⟨0, h⟩).openingStock = r.qtyOnHand) ∧
      (∀ i (h : i < r.calendarSchedule.length),
        (r.calendarSchedule.get ⟨i, h⟩).closingStock =
          max 0 ((r.calendarSchedule.get ⟨i, h⟩).openingStock
            + (r.calendarSchedule.get ⟨i, h⟩).restockQty
            - (r.calendarSchedule.get ⟨i, h⟩).forecastedDemand)) ∧
      (∀ i (h1 : i < r.calendarSchedule.length) (h2 : i + 1 < r.calendarSchedule.length),
        (r.calendarSchedule.get ⟨i + 1, h2⟩).openingStock =
          (r.calendarSchedule.get ⟨i, h1⟩).closingStock) := by
  intro txs fs ty tm0 rows r hmem
  obtain ⟨row, -, rfl⟩ := mem_handleRunForecast hmem
  refine ⟨?_, ?_, ?_, ?_⟩
  · exact schedAux_length (forecastPTx fs txs) row.skus row.qtySold row.productCost ty tm0 12 1
      row.qtyOnHand false
  · intro h
    exact schedAux_head_opening (forecastPTx fs txs) row.skus row.qtySold row.productCost ty tm0
      12 1 row.qtyOnHand false h
  · intro i h
    exact schedAux_cells (forecastPTx fs txs) row.skus row.qtySold row.productCost ty tm0
      (fun cl => cl.closingStock =
        max 0 (cl.openingStock + cl.restockQty - cl.forecastedDemand))
      (fun j st => mkCell_closingStock (forecastPTx fs txs) row.skus row.qtySold row.productCost
        ty tm0 j st)
      12 1 row.qtyOnHand false _ (List.get_mem _ i h)
  · intro i h1 h2
    exact schedAux_chain (forecastPTx fs txs) row.skus row.qtySold row.productCost ty tm0
      12 1 row.qtyOnHand false i h1 h2

/-- Witness for C4 at a concrete forecast run. -/
theorem C4_stock_conservation_witness :
    (forecastRow (forecastPTx baseFilters []) 2025 11 demoRow).calendarSchedule.length = 12 := by
  have hmem : forecastRow (forecastPTx baseFilters []) 2025 11 demoRow ∈
      handleRunForecast [] baseFilters 2025 11 [demoRow] := by
    simp [handleRunForecast]
  exact (C4_stock_conservation [] baseFilters 2025 11 [demoRow] _ hmem).1

/-- C10.  In every forecast month that places a positive order, the month
closes holding exactly its target stock, which equals its forecasted
demand. -/
theorem C10_restock_closes_at_target :
    ∀ (txs : List Transaction) (fs : FilterState) (ty : Int) (tm0 : Nat)
      (rows : List AnalysisRow) (r : AnalysisRow),
      r ∈ handleRunForecast txs fs ty tm0 rows → 0 ≤ r.qtySold →
      ∀ cell ∈ r.calendarSchedule, 0 < cell.restockQty →
        cell.closingStock = cell.targetStock ∧
        cell.targetStock = cell.forecastedDemand := by
  intro txs fs ty tm0 rows r hmem hq cell hc hb
  obtain ⟨row, -, rfl⟩ := mem_handleRunForecast hmem
  have hq2 : 0 ≤ row.qtySold := hq
  exact schedAux_cells (forecastPTx fs txs) row.skus row.qtySold row.productCost ty tm0
    (fun cl => 0 < cl.restockQty →
      cl.closingStock = cl.targetStock ∧ cl.targetStock = cl.forecastedDemand)
    (fun j st => mkCell_order (forecastPTx fs txs) row.skus row.qtySold row.productCost
      ty tm0 j st hq2)
    12 1 row.qtyOnHand false cell hc hb

/-- Witness for C10 at a concrete forecast run with a positive order. -/
theorem C10_restock_closes_at_target_witness :
    ((forecastRow (forecastPTx baseFilters []) 2025 11
        demoRow9).calendarSchedule.headD default).closingStock =
      ((forecastRow (forecastPTx baseFilters []) 2025 11
        demoRow9).calendarSchedule.headD default).targetStock := by
  have hmem : forecastRow (forecastPTx baseFilters []) 2025 11 demoRow9 ∈
      handleRunForecast [] baseFilters 2025 11 [demoRow9] := by
    simp [handleRunForecast]
  have hq : (0 : ℚ) ≤ (forecastRow (forecastPTx baseFilters []) 2025 11 demoRow9).qtySold := by
    show (0 : ℚ) ≤ demoRow9.qtySold
    norm_num [demoRow9, demoRow]
  have hcell : (forecastRow (forecastPTx baseFilters []) 2025 11
        demoRow9).calendarSchedule.headD default ∈
      (forecastRow (forecastPTx baseFilters []) 2025 11 demoRow9).calendarSchedule := by
    rw [forecastRow_schedule]
    simp only [schedAux, List.headD_cons]
    exact List.mem_cons_self _ _
  have hb : 0 < ((forecastRow (forecastPTx baseFilters []) 2025 11
      demoRow9).calendarSchedule.headD default).restockQty := by
    rw [forecastRow_schedule]
    simp only [schedAux, List.headD_cons]
    simp +decide [mkCell, lookback, lookYear, monthAt, forecastPTx, jsEqListStr, jsEqStrList,
      demoRow9, demoRow]
  exact (C10_restock_closes_at_target [] baseFilters 2025 11 [demoRow9] _
    hmem hq _ hcell hb).1

/-- C6.  Every forecast cell's demand is `ceil(historicalAverage * 1.05)`
when the historical average is positive and `ceil(row.qtySold / 3)`
otherwise; and on a concrete history with lookback transactions in 2 of
the last 3 years summing to 20 and 30 units, the first forecast month has
`historicalAverage = 25` and `forecastedDemand = 27`.  (The scenario is
exhibited on `forecastRow`, the per-row enrichment applied by
`handleRunForecast`, fed with that history.) -/
theorem C6_forecast_demand :
    (∀ (txs : List Transaction) (fs : FilterState) (ty : Int) (tm0 : Nat)
      (rows : List AnalysisRow) (r : AnalysisRow),
      r ∈ handleRunForecast txs fs ty tm0 rows →
      ∀ cell ∈ r.calendarSchedule,
        cell.forecastedDemand =
          (if 0 < cell.historicalAverage
           then ((⌈cell.historicalAverage * (105 / 100)⌉ : Int) : ℚ)
           else ((⌈r.qtySold / 3⌉ : Int) : ℚ))) ∧
    ((forecastRow [txJan25, txJan24] 2025 11
        demoRow).calendarSchedule.headD default).historicalAverage = 25 ∧
    ((forecastRow [txJan25, txJan24] 2025 11
        demoRow).calendarSchedule.headD default).forecastedDemand = 27 := by
  refine ⟨?_, ?_, ?_⟩
  · intro txs fs ty tm0 rows r hmem cell hc
    obtain ⟨row, -, rfl⟩ := mem_handleRunForecast hmem
    exact schedAux_cells (forecastPTx fs txs) row.skus row.qtySold row.productCost ty tm0
      (fun cl => cl.forecastedDemand =
        (if 0 < cl.historicalAverage
         then ((⌈cl.historicalAverage * (105 / 100)⌉ : Int) : ℚ)
         else ((⌈row.qtySold / 3⌉ : Int) : ℚ)))
      (fun j st => mkCell_demand (forecastPTx fs txs) row.skus row.qtySold row.productCost
        ty tm0 j st)
      12 1 row.qtyOnHand false cell hc
  · rw [forecastRow_schedule]
    simp only [schedAux, List.headD_cons]
    simp +decide [mkCell, lookback, lookYear, monthAt, demoRow, txJan25, txJan24]
    norm_num
  · rw [forecastRow_schedule]
    simp only [schedAux, List.headD_cons]
    simp +decide [mkCell, lookback, lookYear, monthAt, demoRow, txJan25, txJan24]
    norm_num
    exact_mod_cast (show (⌈(105 : ℚ) / 4⌉ : Int) = 27 by rw [Int.ceil_eq_iff]; norm_num)

/-- Witness for C6's universal part at a concrete forecast run. -/
theorem C6_forecast_demand_witness :
    ((forecastRow (forecastPTx baseFilters []) 2025 11
        demoRow9).calendarSchedule.headD default).forecastedDemand =
      (if 0 < ((forecastRow (forecastPTx baseFilters []) 2025 11
          demoRow9).calendarSchedule.headD default).historicalAverage
       then ((⌈((forecastRow (forecastPTx baseFilters []) 2025 11
          demoRow9).calendarSchedule.headD default).historicalAverage * (105 / 100)⌉ : Int) : ℚ)
       else ((⌈(forecastRow (forecastPTx baseFilters []) 2025 11 demoRow9).qtySold / 3⌉
          : Int) : ℚ)) := by
  have hmem : forecastRow (forecastPTx baseFilters []) 2025 11 demoRow9 ∈
      handleRunForecast [] baseFilters 2025 11 [demoRow9] := by
    simp [handleRunForecast]
  have hcell : (forecastRow (forecastPTx baseFilters []) 2025 11
        demoRow9).calendarSchedule.headD default ∈
      (forecastRow (forecastPTx baseFilters []) 2025 11 demoRow9).calendarSchedule := by
    rw [forecastRow_schedule]
    simp only [schedAux, List.headD_cons]
    exact List.mem_cons_self _ _
  exact C6_forecast_demand.1 [] baseFilters 2025 11 [demoRow9] _ hmem _ hcell

/-- C9 (amended).  `hasHistory` is governed by a single signal: it is set
exactly when at least one of the 12 forecast months found a lookback year
with matching transactions in the forecast's property-filtered history;
the row's windowed `qtySold` is never consulted. -/
theorem C9_hasHistory_lookback_only :
    ∀ (pTx : List Transaction) (ty : Int) (tm0 : Nat) (row : AnalysisRow),
      (forecastRow pTx ty tm0 row).hasHistory =
        ((List.range 12).any (fun k => monthFound pTx row.skus ty tm0 (k + 1))) := by
  intro pTx ty tm0 row
  rw [forecastRow_hasHistory, schedAux_flag]
  simp [Nat.add_comm]

/-- C9 counterexample: a row with `qtySold = 9 > 0` in the performance
window whose forecast nevertheless reports `hasHistory = false` — the
claimed second signal (any windowed sales) does not exist in the code. -/
theorem C9_counterexample :
    ((analyzedData [prodA] [txQty9] [] [] baseFilters).map (fun r => r.qtySold) = [9]) ∧
    ((handleRunForecast [txQty9] baseFilters 2025 11
        (analyzedData [prodA] [txQty9] [] [] baseFilters)).map (fun r => r.hasHistory) =
      [false]) := by
  constructor
  · simp +decide [analyzedData, sortRows, analyzeRowsPre, rowSpecs, calculateMetrics,
      rowMatches, filteredTx, skuQtySold, skuTx, findProduct, lowerS, prodA, txQty9,
      baseFilters, List.mergeSort]
  · simp only [handleRunForecast, List.map_map]
    have hflag : ∀ row : AnalysisRow,
        (forecastRow (forecastPTx baseFilters [txQty9]) 2025 11 row).hasHistory = false := by
      intro row
      rw [forecastRow_hasHistory, schedAux_flag]
      simp +decide [monthFound, lookback, lookYear, forecastPTx, jsEqListStr, jsEqStrList]
    have hlen : (analyzedData [prodA] [txQty9] [] [] baseFilters).length = 1 := by
      simp +decide [analyzedData, sortRows, List.length_mergeSort, analyzeRowsPre, rowSpecs,
        rowMatches, lowerS, prodA, txQty9, baseFilters, filteredTx]
    simp [Function.comp_def, hflag, hlen]

/-- C5.  Every row produced by the aggregation satisfies
`revenue = grossRevenue - discounts` exactly (the engine emits
`grossRevenue := revenue + discounts`). -/
theorem C5_revenue_identity :
    ∀ (p : List Product) (t : List Transaction) (inv : List InventoryState)
      (g : List CustomGroup) (fs : FilterState) (r : AnalysisRow),
      r ∈ analyzedData p t inv g fs → r.revenue = r.grossRevenue - r.discounts := by
  intro p t inv g fs r hm
  obtain ⟨spec, -, rfl⟩ := mem_analyzedData hm
  simp only [calculateMetrics]
  ring

/-- Witness for C5 at a concrete aggregation run. -/
theorem C5_revenue_identity_witness :
    demoRow0.revenue = demoRow0.grossRevenue - demoRow0.discounts := by
  have hmem : demoRow0 ∈ analyzedData [prodA] [] [] [] baseFilters := by
    rw [analyzedData, sortRows]
    rw [List.mem_mergeSort]
    refine List.mem_filter.mpr ⟨?_, ?_⟩
    · refine List.mem_map.mpr ⟨demoSpec, ?_, rfl⟩
      simp +decide [rowSpecs, prodA, demoSpec, baseFilters]
    · decide
  exact C5_revenue_identity [prodA] [] [] [] baseFilters demoRow0 hmem

/-- C1 (code evaluation at the failing input).  An in-range transaction
with `review_status = ignored` still contributes to the aggregation:
`analyzedData` reports `qtySold = 5` with it present and `qtySold = 0`
with it removed, so the outputs are not identical as the claim requires —
the pre-filter never consults `review_status`. -/
theorem C1_ignored_still_counted :
    ((analyzedData [prodA] [txIgnored] [] [] baseFilters).map (fun r => r.qtySold) = [5]) ∧
    ((analyzedData [prodA] [] [] [] baseFilters).map (fun r => r.qtySold) = [0]) := by
  constructor
  · simp +decide [analyzedData, sortRows, analyzeRowsPre, rowSpecs, calculateMetrics,
      rowMatches, filteredTx, skuQtySold, skuTx, findProduct, lowerS, prodA, txIgnored,
      baseFilters, List.mergeSort]
  · simp +decide [analyzedData, sortRows, analyzeRowsPre, rowSpecs, calculateMetrics,
      rowMatches, filteredTx, skuQtySold, skuTx, findProduct, lowerS, prodA,
      baseFilters, List.mergeSort]

/-- C2 (code evaluation at the failing input).  The forecast's
property-filter compares the `string[]` filter value with the string
`'All'` and each transaction's string property with the array, both
constantly false under JS strict equality — so the lookback history
`pTx` is always empty.  With no location selected and a January-2025
transaction of 20 units on file (which the lookback for January 2026
would match, as `lookYear` on the unfiltered history shows), the first
forecast cell still reports `historicalAverage = 0` and the row reports
`hasHistory = false`. -/
theorem C2_lookback_sees_no_history :
    (∀ (fs : FilterState) (txs : List Transaction), forecastPTx fs txs = []) ∧
    (lookYear [txJan25] [str "A"] 0 2025 = (20, 1)) ∧
    ((((handleRunForecast [txJan25] baseFilters 2025 11 [demoRow]).headD
        default).calendarSchedule.headD default).historicalAverage = 0) ∧
    (((handleRunForecast [txJan25] baseFilters 2025 11 [demoRow]).headD
        default).hasHistory = false) := by
  refine ⟨?_, ?_, ?_, ?_⟩
  · intro fs txs
    simp [forecastPTx, jsEqListStr, jsEqStrList]
  · simp +decide [lookYear, txJan25]
  · simp only [handleRunForecast, List.map_cons, List.map_nil, List.headD_cons]
    rw [forecastRow_schedule]
    simp only [schedAux, List.headD_cons]
    simp +decide [mkCell, lookback, lookYear, monthAt, forecastPTx, jsEqListStr, jsEqStrList]
  · simp only [handleRunForecast, List.map_cons, List.map_nil, List.headD_cons]
    rw [forecastRow_hasHistory, schedAux_flag]
    simp +decide [monthFound, lookback, lookYear, forecastPTx, jsEqListStr, jsEqStrList]

/-- C3 counterexample.  A transaction carrying `unit_price_sold = 7` for a
product whose current price is 10 is aggregated at the product price: the
row's gross revenue is `1 × 10 = 10`, not the `1 × 7 = 7` the claim's
effective-price rule would give. -/
theorem C3_counterexample :
    ((analyzedData [prodA] [txOverride] [] [] baseFilters).map (fun r => r.grossRevenue) =
      [10]) ∧ (10 : ℚ) ≠ 7 := by
  constructor
  · simp +decide [analyzedData, sortRows, analyzeRowsPre, rowSpecs, calculateMetrics,
      rowMatches, filteredTx, skuQtySold, skuRevenue, skuDiscounts, skuTx, findProduct,
      effDisc, lowerS, prodA, txOverride, baseFilters, List.mergeSort]
  · norm_num

/-! ### Override-erasure lemmas (for C3) -/

theorem filteredTx_stripOverride (fs : FilterState) (txs : List Transaction) :
    filteredTx fs (txs.map stripOverride) = (filteredTx fs txs).map stripOverride := by
  unfold filteredTx
  rw [List.filter_map]
  rfl

theorem skuTx_stripOverride (ftx : List Transaction) (s : Str) :
    skuTx (ftx.map stripOverride) s = (skuTx ftx s).map stripOverride := by
  unfold skuTx
  rw [List.filter_map]
  rfl

theorem skuQtySold_stripOverride (p : List Product) (ftx : List Transaction) :
    skuQtySold p (ftx.map stripOverride) = skuQtySold p ftx := by
  funext s
  unfold skuQtySold
  cases findProduct p s
  · rfl
  · rw [skuTx_stripOverride, List.map_map]
    rfl

theorem skuRevenue_stripOverride (p : List Product) (ftx : List Transaction) :
    skuRevenue p (ftx.map stripOverride) = skuRevenue p ftx := by
  funext s
  unfold skuRevenue
  cases findProduct p s
  · rfl
  · dsimp only
    rw [skuTx_stripOverride, List.map_map]
    rfl

theorem skuDiscounts_stripOverride (p : List Product) (ftx : List Transaction) :
    skuDiscounts p (ftx.map stripOverride) = skuDiscounts p ftx := by
  funext s
  unfold skuDiscounts
  cases findProduct p s
  · rfl
  · rw [skuTx_stripOverride, List.map_map]
    rfl

theorem skuProfit_stripOverride (p : List Product) (ftx : List Transaction) :
    skuProfit p (ftx.map stripOverride) = skuProfit p ftx := by
  funext s
  unfold skuProfit
  cases findProduct p s
  · rfl
  · dsimp only
    rw [skuTx_stripOverride, List.map_map]
    rfl

theorem calculateMetrics_stripOverride (p : List Product) (inv : List InventoryState)
    (fs : FilterState) (ftx : List Transaction) :
    calculateMetrics p inv fs (ftx.map stripOverride) = calculateMetrics p inv fs ftx := by
  funext spec
  simp only [calculateMetrics, skuQtySold_stripOverride, skuRevenue_stripOverride,
    skuDiscounts_stripOverride, skuProfit_stripOverride]

/-- C3 (amended).  The aggregation never consults a transaction's
`unit_price_sold` / `unit_cost_sold`: erasing every override leaves the
entire output of `analyzedData` unchanged, i.e. the effective unit price
is always `Product.price` and the effective unit cost always
`Product.cost`. -/
theorem C3_overrides_unused :
    ∀ (p : List Product) (txs : List Transaction) (inv : List InventoryState)
      (g : List CustomGroup) (fs : FilterState),
      analyzedData p (txs.map stripOverride) inv g fs = analyzedData p txs inv g fs := by
  intro p txs inv g fs
  unfold analyzedData analyzeRowsPre
  rw [filteredTx_stripOverride, calculateMetrics_stripOverride]

/-! ### Custom-grouping lemmas (for C7) -/

theorem calculateMetrics_skus (p : List Product) (inv : List InventoryState)
    (fs : FilterState) (ftx : List Transaction) (spec : RowSpec) :
    (calculateMetrics p inv fs ftx spec).skus = spec.skus := rfl

theorem flatMap_singleton_map {α β : Type} (l : List α) (f : α → β) :
    (l.flatMap (fun x => [f x])) = l.map f := by
  induction l with
  | nil => rfl
  | cons a as ih => simp [List.flatMap_cons, ih]

/-- The SKU multiset of the custom-mode rows before step-6 filtering:
every custom group's list followed by the unclaimed products' SKUs. -/
theorem pre_custom_skus (products : List Product) (txs : List Transaction)
    (inv : List InventoryState) (groups : List CustomGroup) (fs : FilterState)
    (hgb : fs.groupBy = GroupBy.custom) :
    (analyzeRowsPre products txs inv groups fs).flatMap (fun r => r.skus) =
      groups.flatMap (fun g => g.skus) ++
      (products.filter
        (fun p => !(groups.any (fun g => g.skus.contains p.sku)))).map
          (fun p => p.sku) := by
  unfold analyzeRowsPre
  rw [hgb]
  simp only [rowSpecs, List.map_append, List.flatMap_append, List.flatMap_map,
    calculateMetrics_skus]
  congr 1
  exact flatMap_singleton_map _ _

/-- C7 counterexample.  With an empty catalogue and a single custom group
claiming the unknown SKU "X", the custom view's SKU union is `["X"]`,
which is not a permutation of the (empty) product SKU set — the rows'
union can exceed the catalogue, so the claimed equality fails for some
inputs. -/
theorem C7_counterexample :
    ¬ (((analyzeRowsPre [] [] [] [⟨str "g1", str "G", [str "X"]⟩]
          customFilters).flatMap (fun r => r.skus)).Perm
        (([] : List Product).map (fun p => p.sku))) := by
  intro h
  have h2 : (analyzeRowsPre [] [] [] [⟨str "g1", str "G", [str "X"]⟩]
      customFilters).flatMap (fun r => r.skus) = [str "X"] := by
    rw [pre_custom_skus _ _ _ _ _ (by rfl)]
    simp
  rw [List.map_nil, h2] at h
  exact absurd h.eq_nil (by simp)

/-- C7 (amended).  When the catalogue's SKUs are distinct, the custom
groups' SKU lists are duplicate-free as a whole (no duplicates inside a
group and no SKU claimed by two groups) and every claimed SKU exists in
the catalogue, the union of SKUs across custom-group rows and ungrouped
rows (before step-6 filtering) is exactly the full product SKU set with
no SKU appearing more than once. -/
theorem C7_custom_partition :
    ∀ (products : List Product) (txs : List Transaction) (inv : List InventoryState)
      (groups : List CustomGroup) (fs : FilterState),
      fs.groupBy = GroupBy.custom →
      (products.map (fun p => p.sku)).Nodup →
      (groups.flatMap (fun g => g.skus)).Nodup →
      (∀ g ∈ groups, ∀ s ∈ g.skus, s ∈ products.map (fun p => p.sku)) →
      ((analyzeRowsPre products txs inv groups fs).flatMap (fun r => r.skus)).Perm
        (products.map (fun p => p.sku)) := by
  intro products txs inv groups fs hgb hnp hng hsub
  rw [pre_custom_skus products txs inv groups fs hgb]
  have hcontains : ∀ p : Product,
      (groups.any (fun g => g.skus.contains p.sku) = false) ↔
        p.sku ∉ groups.flatMap (fun g => g.skus) := by
    intro p
    rw [← Bool.not_eq_true, List.any_eq_true]
    simp only [List.mem_flatMap, List.elem_iff]
  have hUnodup : ((products.filter
      (fun p => !(groups.any (fun g => g.skus.contains p.sku)))).map
        (fun p => p.sku)).Nodup :=
    List.Nodup.sublist (List.Sublist.map _ (List.filter_sublist products)) hnp
  refine (List.perm_ext_iff_of_nodup ?_ hnp).mpr ?_
  · rw [List.nodup_append]
    refine ⟨hng, hUnodup, ?_⟩
    intro a haG haU
    obtain ⟨p, hp, rfl⟩ := List.mem_map.mp haU
    have hfil := (List.mem_filter.mp hp).2
    rw [Bool.not_eq_eq_eq_not, Bool.not_true] at hfil
    exact (hcontains p).mp hfil haG
  · intro a
    constructor
    · intro ha
      rcases List.mem_append.mp ha with hG | hU
      · obtain ⟨g, hg, hs⟩ := List.mem_flatMap.mp hG
        exact hsub g hg a hs
      · obtain ⟨p, hp, rfl⟩ := List.mem_map.mp hU
        exact List.mem_map.mpr ⟨p, (List.mem_filter.mp hp).1, rfl⟩
    · intro ha
      obtain ⟨p, hp, rfl⟩ := List.mem_map.mp ha
      by_cases hin : p.sku ∈ groups.flatMap (fun g => g.skus)
      · exact List.mem_append.mpr (Or.inl hin)
      · refine List.mem_append.mpr (Or.inr ?_)
        refine List.mem_map.mpr ⟨p, List.mem_filter.mpr ⟨hp, ?_⟩, rfl⟩
        rw [Bool.not_eq_eq_eq_not, Bool.not_true]
        exact (hcontains p).mpr hin

/-- Witness for C7's amended statement at a concrete well-formed input. -/
theorem C7_custom_partition_witness :
    ((analyzeRowsPre [prodA] [] [] [⟨str "g1", str "G", [str "A"]⟩]
        customFilters).flatMap (fun r => r.skus)).Perm
      ([prodA].map (fun p => p.sku)) := by
  refine C7_custom_partition [prodA] [] [] [⟨str "g1", str "G", [str "A"]⟩]
    customFilters (by rfl) (by decide) (by decide) ?_
  intro g hg s hs
  simp only [List.mem_singleton] at hg
  subst hg
  simp only [List.mem_singleton] at hs
  subst hs
  decide

/-! ### Date-widening monotonicity lemmas (for C8) -/

theorem sum_filter_mono {α : Type} (l : List α) (p q : α → Bool) (f : α → ℚ)
    (himp : ∀ a ∈ l, p a = true → q a = true) (hf : ∀ a ∈ l, 0 ≤ f a) :
    ((l.filter p).map f).sum ≤ ((l.filter q).map f).sum := by
  induction l with
  | nil => simp
  | cons a as ih =>
      have ih2 := ih (fun x hx => himp x (List.mem_cons_of_mem a hx))
        (fun x hx => hf x (List.mem_cons_of_mem a hx))
      by_cases hp : p a = true
      · have hq := himp a (List.mem_cons_self a as) hp
        simp only [List.filter_cons, hp, hq, if_true, List.map_cons, List.sum_cons]
        exact add_le_add_left ih2 _
      · by_cases hq : q a = true
        · simp only [List.filter_cons, hp, hq, if_true, if_false, Bool.false_eq_true,
            List.map_cons, List.sum_cons]
          have h0 := hf a (List.mem_cons_self a as)
          linarith
        · simp only [List.filter_cons, hp, hq, Bool.false_eq_true, if_false]
          exact ih2

theorem txMatches_mono (f1 f2 : FilterState)
    (hprop : f2.selectedProperty = f1.selectedProperty)
    (hd : ∀ d, strLeB f1.dateStart d = true → strLeB d f1.dateEnd = true →
      strLeB f2.dateStart d = true ∧ strLeB d f2.dateEnd = true)
    (t : Transaction) (h : txMatches f1 t = true) : txMatches f2 t = true := by
  unfold txMatches at h ⊢
  simp only [Bool.and_eq_true] at h
  obtain ⟨⟨h1, h2⟩, h3⟩ := h
  obtain ⟨hs, he⟩ := hd (normDate t.date) h1 h2
  simp only [Bool.and_eq_true]
  exact ⟨⟨hs, he⟩, by rw [hprop]; exact h3⟩

theorem list_sum_map_add {α : Type} (l : List α) (f g : α → ℚ) :
    (l.map f).sum + (l.map g).sum = (l.map (fun x => f x + g x)).sum := by
  induction l with
  | nil => simp
  | cons a as ih =>
      simp only [List.map_cons, List.sum_cons]
      rw [← ih]
      ring

/-- A SKU's contribution to the row's gross revenue is the per-transaction
`qtySold * p.price` (since `grossRevenue = revenue + discounts`). -/
theorem skuRevenue_add_skuDiscounts (p : List Product) (ftx : List Transaction) (s : Str) :
    skuRevenue p ftx s + skuDiscounts p ftx s =
      (match findProduct p s with
       | none => (0 : ℚ)
       | some pr => ((skuTx ftx s).map (fun t : Transaction => t.qtySold * pr.price)).sum) := by
  unfold skuRevenue skuDiscounts
  cases findProduct p s
  · simp
  · dsimp only
    rw [list_sum_map_add]
    simp only [sub_add_cancel]

theorem metrics_qtySold_proj (p : List Product) (inv : List InventoryState)
    (fs : FilterState) (ftx : List Transaction) (spec : RowSpec) :
    (calculateMetrics p inv fs ftx spec).qtySold =
      (spec.skus.map (skuQtySold p ftx)).sum := rfl

theorem metrics_gross_eq (p : List Product) (inv : List InventoryState)
    (fs : FilterState) (ftx : List Transaction) (spec : RowSpec) :
    (calculateMetrics p inv fs ftx spec).grossRevenue =
      (spec.skus.map (fun s =>
        (match findProduct p s with
         | none => (0 : ℚ)
         | some pr => ((skuTx ftx s).map (fun t : Transaction => t.qtySold * pr.price)).sum))).sum := by
  show (spec.skus.map (skuRevenue p ftx)).sum + (spec.skus.map (skuDiscounts p ftx)).sum = _
  rw [list_sum_map_add]
  refine congrArg List.sum (List.map_congr_left ?_)
  intro s _
  exact skuRevenue_add_skuDiscounts p ftx s

theorem skuTx_filteredTx (fs : FilterState) (txs : List Transaction) (s : Str) :
    skuTx (filteredTx fs txs) s =
      txs.filter (fun t => (t.sku == s) && txMatches fs t) := by
  unfold skuTx filteredTx
  rw [List.filter_filter]

theorem skuQtySold_mono (products : List Product) (txs : List Transaction)
    (f1 f2 : FilterState)
    (hmono : ∀ t, txMatches f1 t = true → txMatches f2 t = true)
    (hq : ∀ t ∈ txs, 0 ≤ t.qtySold) (s : Str) :
    skuQtySold products (filteredTx f1 txs) s ≤ skuQtySold products (filteredTx f2 txs) s := by
  unfold skuQtySold
  cases findProduct products s
  · exact le_refl 0
  · dsimp only
    rw [skuTx_filteredTx, skuTx_filteredTx]
    apply sum_filter_mono
    · intro a _ hpa
      rw [Bool.and_eq_true] at hpa ⊢
      exact ⟨hpa.1, hmono a hpa.2⟩
    · intro a ha
      exact hq a ha

theorem skuGross_mono (products : List Product) (txs : List Transaction)
    (f1 f2 : FilterState)
    (hmono : ∀ t, txMatches f1 t = true → txMatches f2 t = true)
    (hq : ∀ t ∈ txs, 0 ≤ t.qtySold) (hp : ∀ p ∈ products, 0 ≤ p.price) (s : Str) :
    (match findProduct products s with
     | none => (0 : ℚ)
     | some pr => ((skuTx (filteredTx f1 txs) s).map
        (fun t : Transaction => t.qtySold * pr.price)).sum) ≤
    (match findProduct products s with
     | none => (0 : ℚ)
     | some pr => ((skuTx (filteredTx f2 txs) s).map
        (fun t : Transaction => t.qtySold * pr.price)).sum) := by
  cases hfp : findProduct products s
  · exact le_refl 0
  · next pr =>
      have hpr : 0 ≤ pr.price := hp pr (List.mem_of_find?_eq_some hfp)
      dsimp only
      rw [skuTx_filteredTx, skuTx_filteredTx]
      apply sum_filter_mono
      · intro a _ hpa
        rw [Bool.and_eq_true] at hpa ⊢
        exact ⟨hpa.1, hmono a hpa.2⟩
      · intro a ha
        exact mul_nonneg (hq a ha) hpr

/-- C8.  Under the schema hypotheses (`qtySold >= 0`, `price >= 0`), for
two filter states that agree outside the date range, if the second date
window contains every calendar day of the first, then each row (matched
by position, before step-6 display filtering) has `qtySold` and
`grossRevenue` at least as large under the second state. -/
theorem C8_date_widening_monotone :
    ∀ (products : List Product) (txs : List Transaction) (inventory : List InventoryState)
      (groups : List CustomGroup) (f1 f2 : FilterState),
      (∀ t ∈ txs, 0 ≤ t.qtySold) →
      (∀ p ∈ products, 0 ≤ p.price) →
      f2.selectedProperty = f1.selectedProperty →
      f2.groupBy = f1.groupBy →
      (∀ d, strLeB f1.dateStart d = true → strLeB d f1.dateEnd = true →
        strLeB f2.dateStart d = true ∧ strLeB d f2.dateEnd = true) →
      ∀ j (h1 : j < (analyzeRowsPre products txs inventory groups f1).length)
        (h2 : j < (analyzeRowsPre products txs inventory groups f2).length),
        ((analyzeRowsPre products txs inventory groups f1).get ⟨j, h1⟩).qtySold ≤
            ((analyzeRowsPre products txs inventory groups f2).get ⟨j, h2⟩).qtySold ∧
          ((analyzeRowsPre products txs inventory groups f1).get ⟨j, h1⟩).grossRevenue ≤
            ((analyzeRowsPre products txs inventory groups f2).get ⟨j, h2⟩).grossRevenue := by
  intro products txs inventory groups f1 f2 hq hp hprop hgb hd j h1 h2
  have hmono : ∀ t, txMatches f1 t = true → txMatches f2 t = true :=
    txMatches_mono f1 f2 hprop hd
  have hlen1 : j < (rowSpecs products groups f1.groupBy).length := by
    simpa [analyzeRowsPre] using h1
  have hlen2 : j < (rowSpecs products groups f2.groupBy).length := by
    simpa [analyzeRowsPre] using h2
  have hget1 : (analyzeRowsPre products txs inventory groups f1).get ⟨j, h1⟩ =
      calculateMetrics products inventory f1 (filteredTx f1 txs)
        ((rowSpecs products groups f1.groupBy).get ⟨j, hlen1⟩) := by
    simp [analyzeRowsPre, List.get_eq_getElem, List.getElem_map]
  have hget2 : (analyzeRowsPre products txs inventory groups f2).get ⟨j, h2⟩ =
      calculateMetrics products inventory f2 (filteredTx f2 txs)
        ((rowSpecs products groups f2.groupBy).get ⟨j, hlen2⟩) := by
    simp [analyzeRowsPre, List.get_eq_getElem, List.getElem_map]
  have hlists : rowSpecs products groups f2.groupBy = rowSpecs products groups f1.groupBy := by
    rw [hgb]
  have hspec : (rowSpecs products groups f2.groupBy).get ⟨j, hlen2⟩ =
      (rowSpecs products groups f1.groupBy).get ⟨j, hlen1⟩ := by
    rw [List.get_of_eq hlists]
  rw [hget1, hget2, hspec]
  constructor
  · rw [metrics_qtySold_proj, metrics_qtySold_proj]
    apply List.sum_le_sum
    intro s _
    exact skuQtySold_mono products txs f1 f2 hmono hq s
  · rw [metrics_gross_eq, metrics_gross_eq]
    apply List.sum_le_sum
    intro s _
    exact skuGross_mono products txs f1 f2 hmono hq hp s

/-- The demo aggregation has at least one row (bound for the C8 witness). -/
theorem demoPre_len_pos :
    0 < (analyzeRowsPre [prodA] [txIgnored] [] [] baseFilters).length := by
  simp [analyzeRowsPre, rowSpecs, baseFilters]

/-- Witness for C8 at a concrete input (the second window taken equal to
the first, which contains every day of it). -/
theorem C8_date_widening_monotone_witness :
    ((analyzeRowsPre [prodA] [txIgnored] [] [] baseFilters).get
        ⟨0, demoPre_len_pos⟩).qtySold ≤
      ((analyzeRowsPre [prodA] [txIgnored] [] [] baseFilters).get
        ⟨0, demoPre_len_pos⟩).qtySold := by
  exact (C8_date_widening_monotone [prodA] [txIgnored] [] [] baseFilters baseFilters
    (by decide) (by decide) rfl rfl (fun d hs he => ⟨hs, he⟩)
    0 demoPre_len_pos demoPre_len_pos).1

end UDRG
